import Mathlib

/-!
Verification of the sentiment-translator core against its specification.

The definitions below are a shallow embedding of the repository's source:
* `src/emoji.ts` — the emoji reference table and the nearest-match search;
* `src/services/geminiService.ts` — the provider-facing service layer
  (`getSentiment`, `getTranslationAndSentiment`, `getEmojiSuggestions`);
* `src/App.tsx` — the orchestrating component (`handleTranslate`,
  `handleSourceTextChange`, `analyzeTranslatedSentiment`, `handleEmojiAdd`,
  and the realtime `analyzeSourceSentiment` of the first App variant).

JavaScript numbers are modelled as exact rationals (ℚ); `undefined`/`null`
string values are modelled as `Option String` with `none` for the nullish
values, so that JavaScript truthiness of a string value `v` is
`v ≠ none ∧ v ≠ some ""`.  Provider calls are modelled by an oracle value
(`Except` outcome) supplied as an argument: the code under test never
inspects anything about the provider beyond the outcome of each call.
-/

/-! ## src/emoji.ts -/

/-- One entry of the emoji sentiment table: a glyph and its score. -/
structure EmojiEntry where
  emoji : String
  score : ℚ
deriving DecidableEq

/-- The curated emoji table of `src/emoji.ts` (lines 3–16).  The source
literal is listed in ascending score order and is then sorted ascending by
`.sort((a, b) => a.score - b.score)`; since the literal is already sorted
(see `EMOJI_SENTIMENT_LIST_sorted`), that sort is the identity and the
table is embedded directly. -/
def EMOJI_SENTIMENT_LIST : List EmojiEntry := [
  ⟨"😡", -0.875⟩,
  ⟨"😭", -0.803⟩,
  ⟨"😩", -0.729⟩,
  ⟨"😒", -0.583⟩,
  ⟨"😕", -0.422⟩,
  ⟨"😐", -0.106⟩,
  ⟨"🤔", 0.042⟩,
  ⟨"🙂", 0.312⟩,
  ⟨"😊", 0.598⟩,
  ⟨"😄", 0.762⟩,
  ⟨"😍", 0.869⟩,
  ⟨"💖", 0.958⟩]

/-- The reducer callback of `getEmojiForScore` (src/emoji.ts line 30):
`(prev, curr) => Math.abs(curr.score - score) < Math.abs(prev.score - score) ? curr : prev`. -/
def pickCloser (score : ℚ) (prev curr : EmojiEntry) : EmojiEntry :=
  if |curr.score - score| < |prev.score - score| then curr else prev

/-- `getEmojiForScore` (src/emoji.ts lines 23–34): nearest-entry search by
`reduce` over the table (a JavaScript `reduce` without initial value starts
from the first element), with a default glyph for an empty table. -/
def getEmojiForScore (score : ℚ) : String :=
  match EMOJI_SENTIMENT_LIST with
  | [] => "🤔"
  | e :: es => (es.foldl (pickCloser score) e).emoji

/-! ## src/types.ts — data model -/

/-- A sentiment reading as parsed from a provider response.  The provider
schema marks `score` required; `intimacy` and `formality` can be absent
(the service returns a bare `{ score: 0 }` in its short-circuit and catch
branches, and parsed JSON is never field-checked). -/
structure PartialSentiment where
  score : ℚ
  intimacy : Option ℚ
  formality : Option ℚ
deriving DecidableEq

/-- `Sentiment` (src/types.ts): a reading plus the derived emoji glyph.
`intimacy` and `formality` are optional because the values the component
publishes inherit any absence from the provider reading. -/
structure Sentiment where
  score : ℚ
  intimacy : Option ℚ
  formality : Option ℚ
  emoji : String
deriving DecidableEq

/-- `UITranslations` (src/types.ts). -/
structure UITranslations where
  formal : String
  intimate : String
  negative : String
  positive : String
deriving DecidableEq

/-- `EmojiSuggestion` (src/types.ts). -/
structure EmojiSuggestion where
  explanation : String
  emojis : List String
deriving DecidableEq

/-- Text style hints are opaque payload for the core; modelled as strings. -/
def TextStyle := String
deriving instance DecidableEq for TextStyle

/-- A parsed `getTranslationAndSentiment` response.  The TypeScript code
casts the parsed JSON without validating it, so every field may be absent. -/
structure ParsedTranslation where
  translation : Option String
  sourceSentiment : Option PartialSentiment
  translatedSentiment : Option PartialSentiment
  nuance : Option String
  uiTranslations : Option UITranslations
  sourceStyle : Option TextStyle
  translatedStyle : Option TextStyle
deriving DecidableEq

/-- JavaScript string truthiness for a possibly nullish string value:
`undefined`/`null` (modelled as `none`) and the empty string are falsy. -/
def truthy : Option String → Bool
  | none => false
  | some s => s != ""

/-- JavaScript `String.prototype.trim`, modelled over the character list:
remove leading and trailing whitespace. -/
def jsTrim (s : String) : String :=
  ⟨((s.data.dropWhile Char.isWhitespace).reverse.dropWhile Char.isWhitespace).reverse⟩

/-! ## src/services/geminiService.ts -/

/-- `getSentiment` (src/services/geminiService.ts lines 26–48).  `outcome`
is what `generateContent` plus `JSON.parse` would yield inside the `try`
(`Except.error` models a thrown provider or parse error).  Empty or
whitespace-only text short-circuits to `{ score: 0 }` before any request;
the `catch` maps any thrown error to the same `{ score: 0 }`; otherwise the
parsed reading is returned unchanged. -/
def getSentiment (outcome : Except String PartialSentiment) (text : String) :
    Except String PartialSentiment :=
  if jsTrim text = "" then .ok ⟨0, none, none⟩
  else
    match outcome with
    | .ok parsed => .ok parsed
    | .error _ => .ok ⟨0, none, none⟩

/-- `getTranslationAndSentiment` (src/services/geminiService.ts lines
58–145): on a thrown provider/parse error the service rethrows a fixed
message; on success, for German (`"de"`) or Thai (`"th"`) sources a falsy
(`null`, `undefined`, or empty-string) `nuance` is normalized to
`undefined`; no other field is validated or changed. -/
def getTranslationAndSentiment (outcome : Except String ParsedTranslation)
    (sourceLanguageCode : String) : Except String ParsedTranslation :=
  match outcome with
  | .error _ => .error "Failed to translate text and analyze sentiment."
  | .ok parsed =>
    if (sourceLanguageCode == "de" || sourceLanguageCode == "th") && !(truthy parsed.nuance) then
      .ok { parsed with nuance := none }
    else
      .ok parsed

/-- `getEmojiSuggestions` (src/services/geminiService.ts lines 156–198):
rethrows a fixed message on a provider failure, otherwise returns the
parsed suggestion unchanged. -/
def getEmojiSuggestions (outcome : Except String EmojiSuggestion) :
    Except String EmojiSuggestion :=
  match outcome with
  | .error _ => .error "Failed to get emoji suggestions."
  | .ok parsed => .ok parsed

/-! ## src/App.tsx — the orchestrating component -/

/-- The state hooks of the orchestrating component (src/App.tsx lines
175–190).  `translatedText` is an `Option` because the unvalidated provider
response can set it to `undefined`. -/
structure AppState where
  sourceLanguage : String
  targetLanguage : String
  sourceText : String
  translatedText : Option String
  sourceSentiment : Option Sentiment
  translatedSentiment : Option Sentiment
  emojiSuggestion : Option EmojiSuggestion
  nuanceExplanation : Option String
  uiTranslations : Option UITranslations
  sourceStyle : Option TextStyle
  translatedStyle : Option TextStyle
  isLoading : Bool
  isTranslatedAnalyzing : Bool
  error : Option String
deriving DecidableEq

/-- The generic user-facing failure notice (src/App.tsx line 259). -/
def genericErrorMessage : String :=
  "An error occurred. Please check your API key and try again."

/-- The sentiment publication pattern of `handleTranslate` (src/App.tsx
lines 234–242): spread the provider reading and attach the glyph derived
from its score. -/
def withEmoji (r : PartialSentiment) : Sentiment :=
  ⟨r.score, r.intimacy, r.formality, getEmojiForScore r.score⟩

/-- Provider requests issued by one `handleTranslate` run, in order. -/
inductive PCall where
  | translateCall
  | suggestCall
deriving DecidableEq

/-- The outcomes of the provider calls available to one `handleTranslate`
run: what `generateContent` plus `JSON.parse` would yield inside each
service call's `try` block. -/
structure ProviderBehavior where
  translationResult : Except String ParsedTranslation
  suggestionResult : Except String EmojiSuggestion

/-- `handleTranslate` (src/App.tsx lines 208–264), modelled as the complete
effect of one run on the component state together with the list of provider
requests issued.  A property access on an absent required sentiment
(`srcSentiment.score`, `transSentiment.score`) throws inside the `try`
before the corresponding `set` call, so the run falls to the `catch` with
exactly the state updates made up to that point; the `catch` sets the
generic error message and the `finally` clears `isLoading`. -/
def handleTranslate (pb : ProviderBehavior) (st : AppState) : AppState × List PCall :=
  if jsTrim st.sourceText = "" then (st, [])
  else
    let st1 : AppState :=
      { st with
        isLoading := true, error := none, translatedText := some "",
        translatedSentiment := none, emojiSuggestion := none,
        nuanceExplanation := none, sourceSentiment := none,
        uiTranslations := none, sourceStyle := none, translatedStyle := none }
    match getTranslationAndSentiment pb.translationResult st1.sourceLanguage with
    | .error _ =>
      ({ st1 with error := some genericErrorMessage, isLoading := false }, [.translateCall])
    | .ok parsed =>
      match parsed.sourceSentiment with
      | none =>
        ({ st1 with error := some genericErrorMessage, isLoading := false }, [.translateCall])
      | some srcSentiment =>
        let st2 := { st1 with sourceSentiment := some (withEmoji srcSentiment) }
        let st3 := { st2 with translatedText := parsed.translation }
        match parsed.translatedSentiment with
        | none =>
          ({ st3 with error := some genericErrorMessage, isLoading := false }, [.translateCall])
        | some transSentiment =>
          let st4 := { st3 with translatedSentiment := some (withEmoji transSentiment) }
          let st5 :=
            { st4 with
              uiTranslations := parsed.uiTranslations,
              sourceStyle := parsed.sourceStyle, translatedStyle := parsed.translatedStyle }
          let st6 :=
            if truthy parsed.nuance then { st5 with nuanceExplanation := parsed.nuance } else st5
          if |srcSentiment.score - transSentiment.score| > 0.2 then
            match getEmojiSuggestions pb.suggestionResult with
            | .error _ =>
              ({ st6 with error := some genericErrorMessage, isLoading := false },
               [.translateCall, .suggestCall])
            | .ok suggestions =>
              ({ st6 with emojiSuggestion := some suggestions, isLoading := false },
               [.translateCall, .suggestCall])
          else
            ({ st6 with isLoading := false }, [.translateCall])

/-- `handleSourceTextChange` (src/App.tsx lines 272–288): store the new
source text and, if a translation text is present (JavaScript truthiness),
clear every derived field in the same update. -/
def handleSourceTextChange (st : AppState) (newText : String) : AppState :=
  let st1 := { st with sourceText := newText }
  if truthy st.translatedText then
    { st1 with
      translatedText := some "", sourceSentiment := none,
      translatedSentiment := none, emojiSuggestion := none,
      nuanceExplanation := none, uiTranslations := none, error := none,
      sourceStyle := none, translatedStyle := none }
  else st1

/-- `analyzeTranslatedSentiment` (src/App.tsx lines 192–206).  `outcome` is
the oracle for the inner `getSentiment` request; the `catch` branch models
the fallback reading `{score: 0, intimacy: 50, formality: 50}`. -/
def analyzeTranslatedSentiment (outcome : Except String PartialSentiment)
    (st : AppState) (text : String) : AppState :=
  if jsTrim text = "" then { st with translatedSentiment := none }
  else
    match getSentiment outcome text with
    | .ok r =>
      { st with
        translatedSentiment :=
          some ⟨r.score, r.intimacy, r.formality, getEmojiForScore r.score⟩,
        isTranslatedAnalyzing := false }
    | .error _ =>
      { st with
        translatedSentiment := some ⟨0, some 50, some 50, getEmojiForScore 0⟩,
        isTranslatedAnalyzing := false }

/-- `handleEmojiAdd` (src/App.tsx lines 266–270), for states whose
translated text is a string (`getD ""` covers the defined case; on an
`undefined` translated text JavaScript would throw before any update). -/
def handleEmojiAdd (outcome : Except String PartialSentiment)
    (st : AppState) (emoji : String) : AppState :=
  let newText := jsTrim (jsTrim (st.translatedText.getD "") ++ " " ++ emoji)
  analyzeTranslatedSentiment outcome { st with translatedText := some newText } newText

/-- `analyzeSourceSentiment` of the first App variant (src/App.tsx lines
21–36): the realtime sentiment value published for the source field,
`none` for blank text.  That variant's sentiment carries only a score and
an emoji, so the other axes are absent; the `catch` branch publishes the
neutral fallback `{score: 0}`. -/
def analyzeSourceSentiment (outcome : Except String PartialSentiment)
    (text : String) : Option Sentiment :=
  if jsTrim text = "" then none
  else
    match getSentiment outcome text with
    | .ok r => some ⟨r.score, none, none, getEmojiForScore r.score⟩
    | .error _ => some ⟨0, none, none, getEmojiForScore 0⟩

/-! ## Concrete sample values used by witnesses and counterexamples -/

/-- A concrete quiescent component state with a non-blank source text. -/
def sampleState : AppState :=
  { sourceLanguage := "th", targetLanguage := "Korean",
    sourceText := "hello", translatedText := some "",
    sourceSentiment := none, translatedSentiment := none,
    emojiSuggestion := none, nuanceExplanation := none,
    uiTranslations := none, sourceStyle := none, translatedStyle := none,
    isLoading := false, isTranslatedAnalyzing := false, error := none }

/-- A concrete full sentiment reading. -/
def sampleReading (q : ℚ) : PartialSentiment := ⟨q, some 50, some 50⟩

/-- A concrete well-formed translation response with valences 0.8 and 0.3. -/
def sampleParsed : ParsedTranslation :=
  { translation := some "bonjour", sourceSentiment := some (sampleReading 0.8),
    translatedSentiment := some (sampleReading 0.3), nuance := none,
    uiTranslations := none, sourceStyle := none, translatedStyle := none }

/-- A provider behavior whose translation step succeeds with a 0.5 valence
gap and whose suggestion step fails. -/
def suggestionFailBehavior : ProviderBehavior :=
  { translationResult := .ok sampleParsed, suggestionResult := .error "503" }

/-- A provider behavior whose translation step succeeds with a 0.5 valence
gap and whose suggestion step returns three glyphs. -/
def suggestionOkBehavior : ProviderBehavior :=
  { translationResult := .ok sampleParsed,
    suggestionResult := .ok ⟨"the original felt warmer", ["😊", "😄", "💖"]⟩ }

/-- A parsed response lacking only the required `translation` field, with
equal valences so the suggestion step is never reached. -/
def missingTranslationParsed : ParsedTranslation :=
  { translation := none, sourceSentiment := some (sampleReading 0.8),
    translatedSentiment := some (sampleReading 0.8), nuance := none,
    uiTranslations := none, sourceStyle := none, translatedStyle := none }

/-- A provider behavior returning `missingTranslationParsed`. -/
def missingTranslationBehavior : ProviderBehavior :=
  { translationResult := .ok missingTranslationParsed, suggestionResult := .error "unused" }

/-- A parsed response lacking the required `translatedSentiment` field. -/
def missingTransSentimentParsed : ParsedTranslation :=
  { translation := some "bonjour", sourceSentiment := some (sampleReading 0.8),
    translatedSentiment := none, nuance := none,
    uiTranslations := none, sourceStyle := none, translatedStyle := none }

/-- A provider behavior returning `missingTransSentimentParsed`. -/
def missingTransSentimentBehavior : ProviderBehavior :=
  { translationResult := .ok missingTransSentimentParsed, suggestionResult := .error "unused" }

/-- A provider behavior whose translation step succeeds with a valence gap
of exactly 0.2. -/
def thresholdBehavior : ProviderBehavior :=
  { translationResult := .ok
      { sampleParsed with
        sourceSentiment := some (sampleReading 0.5),
        translatedSentiment := some (sampleReading 0.3) },
    suggestionResult := .error "unused" }

/-- A concrete state holding a completed translation with every derived
field populated. -/
def sampleTranslatedState : AppState :=
  { sampleState with
    translatedText := some "bonjour",
    sourceSentiment := some ⟨0.8, some 50, some 50, getEmojiForScore 0.8⟩,
    translatedSentiment := some ⟨0.3, some 50, some 50, getEmojiForScore 0.3⟩,
    emojiSuggestion := some ⟨"gap", ["😊", "😄", "💖"]⟩,
    nuanceExplanation := some "softens the request",
    uiTranslations := some ⟨"formal", "intimate", "negative", "positive"⟩ }

/-- Every sentiment value the state holds carries the glyph derived from
its own score — the invariant of claim C7. -/
def publishedSentimentsDerived (st : AppState) : Prop :=
  (∀ v, st.sourceSentiment = some v → v.emoji = getEmojiForScore v.score) ∧
  (∀ v, st.translatedSentiment = some v → v.emoji = getEmojiForScore v.score)

/-- The source table is sorted ascending by score, so the `.sort` call in
src/emoji.ts line 16 leaves it unchanged. -/
theorem EMOJI_SENTIMENT_LIST_sorted :
    EMOJI_SENTIMENT_LIST.Pairwise (fun a b => a.score ≤ b.score) := by
  norm_num [EMOJI_SENTIMENT_LIST, List.pairwise_cons]

theorem pickCloser_cases (s : ℚ) (p c : EmojiEntry) :
    pickCloser s p c = p ∨ pickCloser s p c = c := by
  unfold pickCloser
  split
  · exact Or.inr rfl
  · exact Or.inl rfl

theorem pickCloser_dist_le_left (s : ℚ) (p c : EmojiEntry) :
    |(pickCloser s p c).score - s| ≤ |p.score - s| := by
  unfold pickCloser
  split
  · exact le_of_lt (by assumption)
  · exact le_refl _

theorem pickCloser_dist_le_right (s : ℚ) (p c : EmojiEntry) :
    |(pickCloser s p c).score - s| ≤ |c.score - s| := by
  unfold pickCloser
  split
  · exact le_refl _
  · exact le_of_not_lt (by assumption)

/-- The reduce always returns an element of the scanned list. -/
theorem foldl_pickCloser_mem (s : ℚ) :
    ∀ (es : List EmojiEntry) (e : EmojiEntry),
      es.foldl (pickCloser s) e ∈ e :: es := by
  intro es
  induction es with
  | nil => intro e; simp
  | cons c cs ih =>
    intro e
    rw [List.foldl_cons]
    have h := ih (pickCloser s e c)
    rcases List.mem_cons.mp h with h2 | h2
    · rw [h2]
      rcases pickCloser_cases s e c with h1 | h1 <;> rw [h1] <;> simp
    · simp only [List.mem_cons]
      exact Or.inr (Or.inr h2)

/-- The reduce returns an entry at minimal absolute distance from `s`. -/
theorem foldl_pickCloser_min (s : ℚ) :
    ∀ (es : List EmojiEntry) (e : EmojiEntry),
      ∀ x ∈ e :: es, |(es.foldl (pickCloser s) e).score - s| ≤ |x.score - s| := by
  intro es
  induction es with
  | nil =>
    intro e x hx
    rcases List.mem_cons.mp hx with h | h
    · subst h; exact le_refl _
    · simp at h
  | cons c cs ih =>
    intro e x hx
    rw [List.foldl_cons]
    have hhead : |(cs.foldl (pickCloser s) (pickCloser s e c)).score - s| ≤
        |(pickCloser s e c).score - s| :=
      ih (pickCloser s e c) _ (List.mem_cons_self _ _)
    rcases List.mem_cons.mp hx with h | h
    · subst h
      exact le_trans hhead (pickCloser_dist_le_left s x c)
    · rcases List.mem_cons.mp h with h2 | h2
      · subst h2
        exact le_trans hhead (pickCloser_dist_le_right s e x)
      · exact ih (pickCloser s e c) x (List.mem_cons.mpr (Or.inr h2))

/-- Tie-break: on a score-sorted list the reduce keeps the first minimum, so
any entry at the same minimal distance has a score at least as large. -/
theorem foldl_pickCloser_tie (s : ℚ) :
    ∀ (es : List EmojiEntry) (e : EmojiEntry),
      (e :: es).Pairwise (fun a b => a.score ≤ b.score) →
      ∀ x ∈ e :: es,
        |x.score - s| = |(es.foldl (pickCloser s) e).score - s| →
        (es.foldl (pickCloser s) e).score ≤ x.score := by
  intro es
  induction es with
  | nil =>
    intro e _ x hx _
    rcases List.mem_cons.mp hx with h | h
    · subst h; exact le_refl _
    · simp at h
  | cons c cs ih =>
    intro e hsort x hx heq
    rw [List.foldl_cons] at heq ⊢
    have hecs : ∀ y ∈ c :: cs, e.score ≤ y.score :=
      fun y hy => (List.pairwise_cons.mp hsort).1 y hy
    have hccs : (c :: cs).Pairwise (fun a b => a.score ≤ b.score) :=
      (List.pairwise_cons.mp hsort).2
    by_cases hc : |c.score - s| < |e.score - s|
    · have hpick : pickCloser s e c = c := by unfold pickCloser; rw [if_pos hc]
      rw [hpick] at heq ⊢
      rcases List.mem_cons.mp hx with h | h
      · -- x = e is impossible: the result is strictly closer than e
        exfalso
        rw [h] at heq
        have hmin : |(cs.foldl (pickCloser s) c).score - s| ≤ |c.score - s| :=
          foldl_pickCloser_min s cs c c (List.mem_cons_self _ _)
        have h1 : |e.score - s| ≤ |c.score - s| := heq.trans_le hmin
        exact absurd (lt_of_le_of_lt h1 hc) (lt_irrefl _)
      · exact ih c hccs x h heq
    · have hpick : pickCloser s e c = e := by unfold pickCloser; rw [if_neg hc]
      rw [hpick] at heq ⊢
      have hecs2 : (e :: cs).Pairwise (fun a b => a.score ≤ b.score) := by
        rw [List.pairwise_cons]
        refine ⟨fun y hy => hecs y (List.mem_cons.mpr (Or.inr hy)), ?_⟩
        exact (List.pairwise_cons.mp hccs).2
      rcases List.mem_cons.mp hx with h | h
      · rw [h] at heq ⊢
        exact ih e hecs2 e (List.mem_cons_self _ _) heq
      · rcases List.mem_cons.mp h with h2 | h2
        · -- x = c: the result ties with e as well, so its score is ≤ e.score ≤ c.score
          rw [h2] at heq ⊢
          have hmine : |(cs.foldl (pickCloser s) e).score - s| ≤ |e.score - s| :=
            foldl_pickCloser_min s cs e e (List.mem_cons_self _ _)
          have hle : |e.score - s| ≤ |c.score - s| := le_of_not_lt hc
          have htie : |e.score - s| = |(cs.foldl (pickCloser s) e).score - s| :=
            le_antisymm (hle.trans (le_of_eq heq)) hmine
          have h1 : (cs.foldl (pickCloser s) e).score ≤ e.score :=
            ih e hecs2 e (List.mem_cons_self _ _) htie
          exact le_trans h1 (hecs c (List.mem_cons_self _ _))
        · exact ih e hecs2 x (List.mem_cons.mpr (Or.inr h2)) heq

/-- C2: for every input score, `getEmojiForScore` returns the glyph of a
table entry minimizing the absolute distance to the score over the whole
table, and any entry at exactly the same minimal distance has a score at
least as large — on a tie the entry appearing earlier in ascending-score
order (the more negative score) wins. -/
theorem C2_getEmojiForScore_nearest (s : ℚ) :
    ∃ e, e ∈ EMOJI_SENTIMENT_LIST ∧ getEmojiForScore s = e.emoji ∧
      (∀ e' ∈ EMOJI_SENTIMENT_LIST, |e.score - s| ≤ |e'.score - s|) ∧
      (∀ e' ∈ EMOJI_SENTIMENT_LIST, |e'.score - s| = |e.score - s| → e.score ≤ e'.score) :=
  ⟨List.foldl (pickCloser s) ⟨"😡", -0.875⟩ EMOJI_SENTIMENT_LIST.tail,
   foldl_pickCloser_mem s EMOJI_SENTIMENT_LIST.tail ⟨"😡", -0.875⟩,
   rfl,
   fun e' he' => foldl_pickCloser_min s EMOJI_SENTIMENT_LIST.tail ⟨"😡", -0.875⟩ e' he',
   fun e' he' hd => foldl_pickCloser_tie s EMOJI_SENTIMENT_LIST.tail ⟨"😡", -0.875⟩
     EMOJI_SENTIMENT_LIST_sorted e' he' hd⟩

/-- C8 counterexample: at valence 0.8 the matcher returns "😄" (table score
0.762, the entry closest to 0.8), not the glyph of the largest-score entry
"💖" (score 0.958) that the claim designates. -/
theorem C8_counterexample :
    getEmojiForScore 0.8 = "😄" ∧ ("😄" : String) ≠ "💖" := by
  constructor
  · norm_num [getEmojiForScore, EMOJI_SENTIMENT_LIST, List.foldl, pickCloser, abs]
  · decide

/-- C4: whenever a translation text is present (non-empty, hence truthy),
a source-text edit stores the new text and clears the translation text,
both sentiments, the suggestion and the nuance note in the same single
update. -/
theorem C4_source_edit_clears_derived (st : AppState) (newText : String)
    (h : truthy st.translatedText = true) :
    (handleSourceTextChange st newText).sourceText = newText ∧
    (handleSourceTextChange st newText).translatedText = some "" ∧
    (handleSourceTextChange st newText).sourceSentiment = none ∧
    (handleSourceTextChange st newText).translatedSentiment = none ∧
    (handleSourceTextChange st newText).emojiSuggestion = none ∧
    (handleSourceTextChange st newText).nuanceExplanation = none := by
  unfold handleSourceTextChange
  simp [h]

/-- C4 witness: the edit-invalidation theorem applied to a concrete state
holding a completed translation with all derived fields populated. -/
theorem C4_witness :
    truthy sampleTranslatedState.translatedText = true ∧
    ((handleSourceTextChange sampleTranslatedState "new text").sourceText = "new text" ∧
     (handleSourceTextChange sampleTranslatedState "new text").translatedText = some "" ∧
     (handleSourceTextChange sampleTranslatedState "new text").sourceSentiment = none ∧
     (handleSourceTextChange sampleTranslatedState "new text").translatedSentiment = none ∧
     (handleSourceTextChange sampleTranslatedState "new text").emojiSuggestion = none ∧
     (handleSourceTextChange sampleTranslatedState "new text").nuanceExplanation = none) :=
  ⟨rfl, C4_source_edit_clears_derived sampleTranslatedState "new text" rfl⟩

/-- C6: blank input makes `getSentiment` return `{ score: 0 }` without
consulting the provider outcome at all; the short-circuit value carries no
intimacy or formality field, unlike the `{0, 50, 50}` neutral reading the
claim (and the caller's fallback literal) describe. -/
theorem C6_blank_input_short_circuit (outcome : Except String PartialSentiment) :
    getSentiment outcome "" = Except.ok ⟨0, none, none⟩ ∧
    getSentiment outcome "   " = Except.ok ⟨0, none, none⟩ := by
  constructor <;> rfl

/-- C9: `getSentiment` never throws — every provider outcome yields an `ok`
reading — and consequently `analyzeTranslatedSentiment` always publishes
the try-branch value derived from that reading: its catch branch is
unreachable. -/
theorem C9_getSentiment_never_throws (outcome : Except String PartialSentiment)
    (text : String) :
    ∃ v, getSentiment outcome text = Except.ok v ∧
      ∀ st, analyzeTranslatedSentiment outcome st text =
        if jsTrim text = "" then { st with translatedSentiment := none }
        else
          { st with
            translatedSentiment :=
              some ⟨v.score, v.intimacy, v.formality, getEmojiForScore v.score⟩,
            isTranslatedAnalyzing := false } := by
  by_cases hb : jsTrim text = ""
  · refine ⟨⟨0, none, none⟩, ?_, ?_⟩
    · simp [getSentiment, hb]
    · intro st
      simp [analyzeTranslatedSentiment, hb]
  · cases houtcome : outcome with
    | ok p =>
      refine ⟨p, ?_, ?_⟩
      · simp [getSentiment, hb]
      · intro st
        simp [analyzeTranslatedSentiment, getSentiment, hb]
    | error e =>
      refine ⟨⟨0, none, none⟩, ?_, ?_⟩
      · simp [getSentiment, hb]
      · intro st
        simp [analyzeTranslatedSentiment, getSentiment, hb]

/-- C10: for source language "de" or "th", a nullish or empty-string nuance
in the parsed response is normalized to an absent nuance, and callers never
receive an empty-string nuance for those languages. -/
theorem C10_nuance_normalized (outcome : Except String ParsedTranslation)
    (parsed : ParsedTranslation) (lang : String)
    (hlang : lang = "de" ∨ lang = "th")
    (hok : outcome = Except.ok parsed) :
    ((parsed.nuance = none ∨ parsed.nuance = some "") →
      getTranslationAndSentiment outcome lang = Except.ok { parsed with nuance := none }) ∧
    (∀ r, getTranslationAndSentiment outcome lang = Except.ok r → r.nuance ≠ some "") := by
  subst hok
  have hl : (lang == "de" || lang == "th") = true := by
    rcases hlang with h | h <;> subst h <;> rfl
  constructor
  · intro hnu
    have ht : truthy parsed.nuance = false := by
      rcases hnu with h | h <;> rw [h] <;> rfl
    simp [getTranslationAndSentiment, hl, ht]
  · intro r hr
    by_cases ht : truthy parsed.nuance
    · simp [getTranslationAndSentiment, hl, ht] at hr
      subst hr
      intro hcontra
      rw [hcontra] at ht
      exact absurd ht (by simp [truthy])
    · simp only [Bool.not_eq_true] at ht
      simp [getTranslationAndSentiment, hl, ht] at hr
      rw [← hr]
      simp

/-- C10 witness: the normalization theorem applied to a German-source
response carrying an empty-string nuance. -/
theorem C10_witness :
    (("de" : String) = "de" ∨ ("de" : String) = "th") ∧
    ((({ sampleParsed with nuance := some "" } : ParsedTranslation).nuance = none ∨
      ({ sampleParsed with nuance := some "" } : ParsedTranslation).nuance = some "") →
      getTranslationAndSentiment (Except.ok { sampleParsed with nuance := some "" }) "de" =
        Except.ok { { sampleParsed with nuance := some "" } with nuance := none }) ∧
    (∀ r, getTranslationAndSentiment (Except.ok { sampleParsed with nuance := some "" }) "de" =
        Except.ok r → r.nuance ≠ some "") :=
  ⟨Or.inl rfl,
   (C10_nuance_normalized (Except.ok { sampleParsed with nuance := some "" })
     { sampleParsed with nuance := some "" } "de" (Or.inl rfl) rfl).1,
   (C10_nuance_normalized (Except.ok { sampleParsed with nuance := some "" })
     { sampleParsed with nuance := some "" } "de" (Or.inl rfl) rfl).2⟩

/-- C3: in any run whose translation step yields both sentiment readings,
the emoji-suggestion request is issued iff the absolute valence difference
strictly exceeds 0.2; at exactly 0.2 no request is made. -/
theorem C3_suggestion_iff_delta_gt (pb : ProviderBehavior) (st : AppState)
    (parsed : ParsedTranslation) (src tr : PartialSentiment)
    (hblank : jsTrim st.sourceText ≠ "")
    (hok : pb.translationResult = Except.ok parsed)
    (hsrc : parsed.sourceSentiment = some src)
    (htr : parsed.translatedSentiment = some tr) :
    (PCall.suggestCall ∈ (handleTranslate pb st).2 ↔ |src.score - tr.score| > 0.2) := by
  by_cases hcond :
    ((st.sourceLanguage == "de" || st.sourceLanguage == "th") && !(truthy parsed.nuance)) = true
  all_goals by_cases hd : |src.score - tr.score| > 0.2
  all_goals cases hs : pb.suggestionResult
  all_goals
    simp [handleTranslate, getTranslationAndSentiment, getEmojiSuggestions,
      hok, hsrc, htr, hblank, hd, hs, hcond]

/-- C3 witness: the threshold theorem applied to a concrete run whose
valence gap is exactly 0.2, where no suggestion request is issued. -/
theorem C3_witness :
    jsTrim sampleState.sourceText ≠ "" ∧
    (PCall.suggestCall ∈ (handleTranslate thresholdBehavior sampleState).2 ↔
      |(sampleReading 0.5).score - (sampleReading 0.3).score| > 0.2) :=
  ⟨by decide,
   C3_suggestion_iff_delta_gt thresholdBehavior sampleState
     { sampleParsed with
       sourceSentiment := some (sampleReading 0.5),
       translatedSentiment := some (sampleReading 0.3) }
     (sampleReading 0.5) (sampleReading 0.3) (by decide) rfl rfl rfl⟩

/-- The 0.5 valence gap of `sampleParsed` exceeds the 0.2 threshold. -/
theorem sampleParsed_delta_gt :
    |(sampleReading 0.8).score - (sampleReading 0.3).score| > 0.2 := by
  norm_num [sampleReading, abs]

/-- C1 (amended): when the translation step succeeds with both readings and
the valence gap exceeds 0.2 but the suggestion request fails, the run keeps
the translation text and both derived sentiments intact and sets no
suggestion — but the failure is caught by the run's catch and surfaced as
the generic pipeline error message. -/
theorem C1_suggestion_failure_keeps_translation (pb : ProviderBehavior) (st : AppState)
    (parsed : ParsedTranslation) (src tr : PartialSentiment) (e : String)
    (hblank : jsTrim st.sourceText ≠ "")
    (hok : pb.translationResult = Except.ok parsed)
    (hsrc : parsed.sourceSentiment = some src)
    (htr : parsed.translatedSentiment = some tr)
    (hdelta : |src.score - tr.score| > 0.2)
    (hfail : pb.suggestionResult = Except.error e) :
    (handleTranslate pb st).1.translatedText = parsed.translation ∧
    (handleTranslate pb st).1.sourceSentiment = some (withEmoji src) ∧
    (handleTranslate pb st).1.translatedSentiment = some (withEmoji tr) ∧
    (handleTranslate pb st).1.emojiSuggestion = none ∧
    (handleTranslate pb st).1.isLoading = false ∧
    (handleTranslate pb st).1.error = some genericErrorMessage := by
  by_cases hcond :
    ((st.sourceLanguage == "de" || st.sourceLanguage == "th") && !(truthy parsed.nuance)) = true
  all_goals
    simp [handleTranslate, getTranslationAndSentiment, getEmojiSuggestions,
      apply_ite, hok, hsrc, htr, hblank, hdelta, hfail, hcond]

/-- C1 witness for the amended theorem: a concrete run whose suggestion
step fails after the translation step succeeded with a 0.5 valence gap. -/
theorem C1_witness :
    jsTrim sampleState.sourceText ≠ "" ∧
    |(sampleReading 0.8).score - (sampleReading 0.3).score| > 0.2 ∧
    ((handleTranslate suggestionFailBehavior sampleState).1.translatedText =
        sampleParsed.translation ∧
     (handleTranslate suggestionFailBehavior sampleState).1.sourceSentiment =
        some (withEmoji (sampleReading 0.8)) ∧
     (handleTranslate suggestionFailBehavior sampleState).1.translatedSentiment =
        some (withEmoji (sampleReading 0.3)) ∧
     (handleTranslate suggestionFailBehavior sampleState).1.emojiSuggestion = none ∧
     (handleTranslate suggestionFailBehavior sampleState).1.isLoading = false ∧
     (handleTranslate suggestionFailBehavior sampleState).1.error =
        some genericErrorMessage) :=
  ⟨by decide, sampleParsed_delta_gt,
   C1_suggestion_failure_keeps_translation suggestionFailBehavior sampleState
     sampleParsed (sampleReading 0.8) (sampleReading 0.3) "503"
     (by decide) rfl rfl rfl sampleParsed_delta_gt rfl⟩

/-- C1 counterexample: in a concrete run the translation step succeeds, the
suggestion step fails, and the pipeline surfaces the generic error message
to the user — contradicting the claim that the suggestion failure is never
surfaced as a pipeline error. -/
theorem C1_counterexample :
    (handleTranslate suggestionFailBehavior sampleState).1.error =
      some genericErrorMessage ∧
    (handleTranslate suggestionFailBehavior sampleState).1.translatedText =
      some "bonjour" ∧
    (handleTranslate suggestionFailBehavior sampleState).1.emojiSuggestion = none := by
  norm_num +decide [handleTranslate, getTranslationAndSentiment, getEmojiSuggestions,
    suggestionFailBehavior, sampleState, sampleParsed, sampleReading, truthy, withEmoji,
    apply_ite, abs]

/-- C5 counterexample: a parsed response lacking the required `translation`
field is not treated as a provider failure — the run completes without any
error and publishes an undefined translation text. -/
theorem C5_counterexample :
    (handleTranslate missingTranslationBehavior sampleState).1.error = none ∧
    (handleTranslate missingTranslationBehavior sampleState).1.translatedText = none := by
  norm_num +decide [handleTranslate, getTranslationAndSentiment, getEmojiSuggestions,
    missingTranslationBehavior, missingTranslationParsed, sampleState, sampleReading,
    truthy, withEmoji, apply_ite, abs]

/-- C5 (amended): a translation-step response lacking a sentiment reading
makes the run end with the generic user-facing failure message, but the
fields assigned before the failing access are already published — when only
`translatedSentiment` is missing, the translation text and the source
sentiment have been set; and a response lacking only the translation text
is not treated as a failure at all (see the counterexample). -/
theorem C5_missing_sentiment_fails (pb : ProviderBehavior) (st : AppState)
    (parsed : ParsedTranslation)
    (hblank : jsTrim st.sourceText ≠ "")
    (hok : pb.translationResult = Except.ok parsed)
    (hmiss : parsed.sourceSentiment = none ∨ parsed.translatedSentiment = none) :
    (handleTranslate pb st).1.error = some genericErrorMessage ∧
    (∀ src, parsed.sourceSentiment = some src → parsed.translatedSentiment = none →
      (handleTranslate pb st).1.translatedText = parsed.translation ∧
      (handleTranslate pb st).1.sourceSentiment = some (withEmoji src)) := by
  refine ⟨?_, fun src hsrc hm => ?_⟩
  · rcases hmiss with hm | hm
    · by_cases hcond :
        ((st.sourceLanguage == "de" || st.sourceLanguage == "th") && !(truthy parsed.nuance)) = true
      all_goals
        simp [handleTranslate, getTranslationAndSentiment, hok, hblank, hcond, hm]
    · rcases hsrc : parsed.sourceSentiment with _ | src
      all_goals by_cases hcond :
        ((st.sourceLanguage == "de" || st.sourceLanguage == "th") && !(truthy parsed.nuance)) = true
      all_goals
        simp [handleTranslate, getTranslationAndSentiment, hok, hblank, hcond, hm, hsrc]
  · by_cases hcond :
      ((st.sourceLanguage == "de" || st.sourceLanguage == "th") && !(truthy parsed.nuance)) = true
    all_goals
      simp [handleTranslate, getTranslationAndSentiment, hok, hblank, hcond, hm, hsrc]

/-- C5 witness for the amended theorem: a concrete run whose response lacks
the translated-sentiment reading. -/
theorem C5_witness :
    jsTrim sampleState.sourceText ≠ "" ∧
    ((handleTranslate missingTransSentimentBehavior sampleState).1.error =
      some genericErrorMessage ∧
     (∀ src, missingTransSentimentParsed.sourceSentiment = some src →
        missingTransSentimentParsed.translatedSentiment = none →
        (handleTranslate missingTransSentimentBehavior sampleState).1.translatedText =
          missingTransSentimentParsed.translation ∧
        (handleTranslate missingTransSentimentBehavior sampleState).1.sourceSentiment =
          some (withEmoji src))) :=
  ⟨by decide,
   C5_missing_sentiment_fails missingTransSentimentBehavior sampleState
     missingTransSentimentParsed (by decide) rfl (Or.inr rfl)⟩

/-- C8 (amended): at valence 0.8 the matcher returns "😄" (score 0.762, the
entry closest to 0.8, not the largest-score entry); a run with source
valence 0.8 and target valence 0.3 has delta 0.5 > 0.2, so the suggestion
request is issued and the provider's suggestion — carrying exactly 3 glyphs
per the provider contract — is published. -/
theorem C8_end_to_end_example (pb : ProviderBehavior) (st : AppState)
    (parsed : ParsedTranslation) (src tr : PartialSentiment) (sug : EmojiSuggestion)
    (hblank : jsTrim st.sourceText ≠ "")
    (hok : pb.translationResult = Except.ok parsed)
    (hsrc : parsed.sourceSentiment = some src) (hss : src.score = 0.8)
    (htr : parsed.translatedSentiment = some tr) (hts : tr.score = 0.3)
    (hsug : pb.suggestionResult = Except.ok sug)
    (hlen : sug.emojis.length = 3) :
    getEmojiForScore 0.8 = "😄" ∧
    PCall.suggestCall ∈ (handleTranslate pb st).2 ∧
    (handleTranslate pb st).1.emojiSuggestion = some sug ∧
    sug.emojis.length = 3 := by
  have hdelta : |src.score - tr.score| > 0.2 := by rw [hss, hts]; norm_num [abs]
  refine ⟨?_, ?_, ?_, hlen⟩
  · norm_num [getEmojiForScore, EMOJI_SENTIMENT_LIST, List.foldl, pickCloser, abs]
  all_goals by_cases hcond :
    ((st.sourceLanguage == "de" || st.sourceLanguage == "th") && !(truthy parsed.nuance)) = true
  all_goals
    simp [handleTranslate, getTranslationAndSentiment, getEmojiSuggestions,
      apply_ite, hok, hsrc, htr, hblank, hdelta, hsug, hcond]

/-- C8 witness for the amended theorem: the concrete run behind the spec's
end-to-end example, with a three-glyph provider suggestion. -/
theorem C8_witness :
    jsTrim sampleState.sourceText ≠ "" ∧
    (sampleReading 0.8).score = 0.8 ∧ (sampleReading 0.3).score = 0.3 ∧
    (getEmojiForScore 0.8 = "😄" ∧
     PCall.suggestCall ∈ (handleTranslate suggestionOkBehavior sampleState).2 ∧
     (handleTranslate suggestionOkBehavior sampleState).1.emojiSuggestion =
       some ⟨"the original felt warmer", ["😊", "😄", "💖"]⟩ ∧
     (⟨"the original felt warmer", ["😊", "😄", "💖"]⟩ : EmojiSuggestion).emojis.length = 3) :=
  ⟨by decide, rfl, rfl,
   C8_end_to_end_example suggestionOkBehavior sampleState sampleParsed
     (sampleReading 0.8) (sampleReading 0.3)
     ⟨"the original felt warmer", ["😊", "😄", "💖"]⟩
     (by decide) rfl rfl rfl rfl rfl rfl rfl⟩

/-- `analyzeTranslatedSentiment` preserves the derived-glyph invariant:
both of its publication branches attach `getEmojiForScore` of the very
score they store. -/
theorem analyzeTranslatedSentiment_preserves
    (o : Except String PartialSentiment) (st : AppState) (text : String)
    (h : publishedSentimentsDerived st) :
    publishedSentimentsDerived (analyzeTranslatedSentiment o st text) := by
  unfold analyzeTranslatedSentiment
  by_cases hb : jsTrim text = ""
  · rw [if_pos hb]
    exact ⟨h.1, by simp⟩
  · rw [if_neg hb]
    cases hgs : getSentiment o text with
    | ok r => exact ⟨h.1, by simp⟩
    | error e => exact ⟨h.1, by simp⟩

/-- `handleSourceTextChange` preserves the derived-glyph invariant: it
either clears both sentiments or leaves them untouched. -/
theorem handleSourceTextChange_preserves (st : AppState) (newText : String)
    (h : publishedSentimentsDerived st) :
    publishedSentimentsDerived (handleSourceTextChange st newText) := by
  unfold handleSourceTextChange
  by_cases ht : truthy st.translatedText = true
  · simp [ht, publishedSentimentsDerived]
  · simp [ht]
    exact ⟨h.1, h.2⟩

/-- `handleTranslate` preserves the derived-glyph invariant: every sentiment
it publishes is built by `withEmoji`, every failure branch clears them. -/
theorem handleTranslate_preserves (pb : ProviderBehavior) (st : AppState)
    (h : publishedSentimentsDerived st) :
    publishedSentimentsDerived (handleTranslate pb st).1 := by
  by_cases hblank : jsTrim st.sourceText = ""
  · simpa [handleTranslate, hblank] using h
  · cases hok : pb.translationResult with
    | error e =>
      simp [handleTranslate, getTranslationAndSentiment, hblank, hok,
        publishedSentimentsDerived]
    | ok parsed =>
      rcases hsrcc : parsed.sourceSentiment with _ | src
      · by_cases hcond :
          ((st.sourceLanguage == "de" || st.sourceLanguage == "th") && !(truthy parsed.nuance)) = true
        all_goals
          simp [handleTranslate, getTranslationAndSentiment, hblank, hok, hcond, hsrcc,
            publishedSentimentsDerived]
      · rcases htrc : parsed.translatedSentiment with _ | tr
        · by_cases hcond :
            ((st.sourceLanguage == "de" || st.sourceLanguage == "th") && !(truthy parsed.nuance)) = true
          all_goals
            simp [handleTranslate, getTranslationAndSentiment, hblank, hok, hcond, hsrcc, htrc,
              publishedSentimentsDerived, withEmoji]
        · by_cases hd : |src.score - tr.score| > 0.2
          · cases hs : pb.suggestionResult with
            | ok sug =>
              by_cases hcond :
                ((st.sourceLanguage == "de" || st.sourceLanguage == "th") && !(truthy parsed.nuance)) = true
              all_goals
                simp [handleTranslate, getTranslationAndSentiment, getEmojiSuggestions,
                  hblank, hok, hcond, hsrcc, htrc, hd, hs,
                  publishedSentimentsDerived, withEmoji, apply_ite]
            | error e =>
              by_cases hcond :
                ((st.sourceLanguage == "de" || st.sourceLanguage == "th") && !(truthy parsed.nuance)) = true
              all_goals
                simp [handleTranslate, getTranslationAndSentiment, getEmojiSuggestions,
                  hblank, hok, hcond, hsrcc, htrc, hd, hs,
                  publishedSentimentsDerived, withEmoji, apply_ite]
          · by_cases hcond :
              ((st.sourceLanguage == "de" || st.sourceLanguage == "th") && !(truthy parsed.nuance)) = true
            all_goals
              simp [handleTranslate, getTranslationAndSentiment, hblank, hok, hcond, hsrcc, htrc,
                hd, publishedSentimentsDerived, withEmoji, apply_ite]

/-- C7: every sentiment value the component publishes carries the glyph
derived from its own score — the invariant is preserved by a full
`handleTranslate` run, by the re-analysis `analyzeTranslatedSentiment`
(also as invoked from `handleEmojiAdd` after an append), and by source
edits; the realtime `analyzeSourceSentiment` of the first App variant
likewise only publishes glyphs derived from the stored score. -/
theorem C7_published_glyphs_derived (pb : ProviderBehavior)
    (o : Except String PartialSentiment) (st : AppState) (text emoji : String)
    (h : publishedSentimentsDerived st) :
    publishedSentimentsDerived (handleTranslate pb st).1 ∧
    publishedSentimentsDerived (analyzeTranslatedSentiment o st text) ∧
    publishedSentimentsDerived (handleEmojiAdd o st emoji) ∧
    publishedSentimentsDerived (handleSourceTextChange st text) ∧
    (∀ v, analyzeSourceSentiment o text = some v → v.emoji = getEmojiForScore v.score) := by
  refine ⟨handleTranslate_preserves pb st h,
          analyzeTranslatedSentiment_preserves o st text h,
          ?_, handleSourceTextChange_preserves st text h, ?_⟩
  · unfold handleEmojiAdd
    exact analyzeTranslatedSentiment_preserves o _ _ ⟨h.1, h.2⟩
  · unfold analyzeSourceSentiment
    by_cases hb : jsTrim text = ""
    · simp [hb]
    · cases hgs : getSentiment o text with
      | ok r => simp [hb, hgs]
      | error e => simp [hb, hgs]

/-- C7 witness: the invariant theorem applied to a concrete quiescent state
and a concrete run. -/
theorem C7_witness :
    publishedSentimentsDerived sampleState ∧
    (publishedSentimentsDerived (handleTranslate suggestionOkBehavior sampleState).1 ∧
     publishedSentimentsDerived
       (analyzeTranslatedSentiment (Except.ok (sampleReading 0.7)) sampleState "hi") ∧
     publishedSentimentsDerived
       (handleEmojiAdd (Except.ok (sampleReading 0.7)) sampleState "😊") ∧
     publishedSentimentsDerived (handleSourceTextChange sampleState "hi") ∧
     (∀ v, analyzeSourceSentiment (Except.ok (sampleReading 0.7)) "hi" = some v →
        v.emoji = getEmojiForScore v.score)) :=
  ⟨by simp [publishedSentimentsDerived, sampleState],
   C7_published_glyphs_derived suggestionOkBehavior (Except.ok (sampleReading 0.7))
     sampleState "hi" "😊" (by simp [publishedSentimentsDerived, sampleState])⟩
